import Mathlib

/-!
Verification of `pyinterpret/core/global_interpretation/feature_importance.py`
(the `FeatureImportance.feature_importance` and `plot_feature_importance`
methods) against its natural-language specification.

Modelling choices, fixed once for the whole development:
* Scalar data values and model predictions are exact rationals (`ℚ`); the
  reduction `np.mean(np.std(..., axis=0))` produces real numbers (`ℝ`)
  because of the square root inside `np.std`.
* A numpy value that is not a finite real (NaN from a mean/std over an empty
  slice, NaN/inf from division by zero) is modelled as `none : Option ℝ`.
* A pandas `DataFrame` is an ordered association list of named columns; the
  Python dict `importances` keyed in `feature_ids` insertion order, turned
  into a `pd.Series`, is an association list in that same order, and
  `Series.sort_values()` is a stable ascending sort on values with
  non-finite values last (pandas `na_position='last'`).
* Python exceptions are `Except PyError`; the model's `predict` is an
  arbitrary function `Table → Except PyError Pred`, and the random draw of
  `generate_column_sample` is an oracle `Sampler` supplied as a parameter.
* The loop body's assignments are threaded through an explicit
  `EngineState` that distinguishes the accessor-owned table
  (`self.data_set.data`) from the working copy `X_mutable`, and a `Trace`
  records every `predict` invocation and every sampling call.
-/

namespace Pyinterpret

/-- Scalar cell values of the tabular dataset. -/
abbrev Val := ℚ

/-- One named column of the table. -/
abbrev Column := List Val

/-- A pandas `DataFrame`: an ordered association list of named columns. -/
abbrev Table := List (String × Column)

/-- A prediction output: `n` rows, each a vector of `k` outputs. -/
abbrev Pred := List (List Val)

/-- Modelled from the spec: the exception classes of
`pyinterpret.util.exceptions` (§7 of the spec), whose defining module is not
under `src/`; only the constructors actually raised or mandated by the spec
are represented, plus an arbitrary-exception case for model failures and the
`ValueError` that pandas/numpy raise at lines 65–66 of the source when the
drawn samples and the table's rows differ in count. -/
inductive PyError where
  | configurationError (msg : String)
  | valueError (msg : String)
  | matplotlibUnavailableError (msg : String)
  | matplotlibDisplayError (msg : String)
  | modelException (tag : String)
deriving DecidableEq, Repr

/-- The dataset accessor `self.data_set`: its owned table and the ordered
feature identifiers. -/
structure Dataset where
  data : Table
  feature_ids : List String
deriving DecidableEq, Repr

/-- The duck-typed model: `predict(table)` returning a prediction array or
raising. -/
abbrev Model := Table → Except PyError Pred

/-- The random source behind `generate_column_sample`: given a feature id and
a sample count, the concrete values drawn. -/
abbrev Sampler := String → ℕ → Column

/-- Column lookup `X[feature_id]` on the association-list table. -/
def getColumn (t : Table) (f : String) : Column :=
  ((t.find? (fun c => c.1 = f)).map (fun c => c.2)).getD []

/-- Column assignment `X[feature_id] = samples` on the association-list
table. -/
def setColumn (t : Table) (f : String) (v : Column) : Table :=
  t.map (fun c => if c.1 = f then (c.1, v) else c)

/-- Modelled from the spec: `DataManager.generate_column_sample` (§4.1),
whose defining module is not under `src/`. For method `"random-choice"` it
returns the oracle's `n_samples` draws; any other method value fails with
`ConfigurationError`. -/
def generate_column_sample (oracle : Sampler) (f : String) (n_samples : ℕ)
    (method : String) : Except PyError Column :=
  if method = "random-choice" then Except.ok (oracle f n_samples)
  else Except.error (PyError.configurationError "method not recognized")

/-- Mean of a list of reals, `np.mean`: sum divided by length (division by
zero only ever reached on the empty slice, which the callers guard as NaN). -/
noncomputable def listMean (c : List ℝ) : ℝ := c.sum / c.length

/-- Population variance of a list of reals (`np.std` squared, `ddof = 0`). -/
noncomputable def listVar (c : List ℝ) : ℝ :=
  ((c.map (fun x => (x - listMean c) ^ 2)).sum) / c.length

/-- Population standard deviation of a list of reals, `np.std`. -/
noncomputable def listStd (c : List ℝ) : ℝ := Real.sqrt (listVar c)

/-- Exact embedding of a rational column into the reals. -/
def castCol : List Val → List ℝ := List.map (fun q => (q : ℝ))

/-- Number of columns of a prediction array (its `shape[1]`). -/
def numCols (D : Pred) : ℕ := (D.headD []).length

/-- Column `j` of a prediction array. -/
def colAt (D : Pred) (j : ℕ) : List Val := D.map (fun r => r.getD j 0)

/-- Elementwise matrix subtraction `A - B` of two prediction arrays. -/
def matSub (A B : Pred) : Pred :=
  List.zipWith (fun ra rb => List.zipWith (fun a b => a - b) ra rb) A B

/-- The reduction `np.mean(np.std(D, axis=0))` of line 69 of the source:
the per-column population standard deviation, averaged over the columns.
`none` is the NaN that numpy produces when the array has no rows or no
columns (mean/std over an empty slice). -/
noncomputable def npMeanStd (D : Pred) : Option ℝ :=
  if D.length = 0 ∨ numCols D = 0 then none
  else
    some ((((List.range (numCols D)).map
      (fun j => listStd (castCol (colAt D j)))).sum) / (numCols D))

/-- A `pd.Series` of importances: feature ids with their (possibly
non-finite) scores, in index order. -/
abbrev Series := List (String × Option ℝ)

/-- Value order used by `Series.sort_values()`: ascending on finite values,
non-finite (NaN) values last. -/
def valLE (a b : Option ℝ) : Prop :=
  match a, b with
  | none, none => True
  | none, some _ => False
  | some _, none => True
  | some x, some y => x ≤ y

noncomputable instance valLE.instDecidableRel : DecidableRel valLE := fun a b =>
  match a, b with
  | none, none => Decidable.isTrue trivial
  | none, some _ => Decidable.isFalse id
  | some _, none => Decidable.isTrue trivial
  | some x, some y => inferInstanceAs (Decidable (x ≤ y))

/-- Order on series entries: by value only (the sort key of
`sort_values()`). -/
def entryLE (a b : String × Option ℝ) : Prop := valLE a.2 b.2

noncomputable instance entryLE.instDecidableRel : DecidableRel entryLE :=
  fun a b => inferInstanceAs (Decidable (valLE a.2 b.2))

instance entryLE.instIsTotal : IsTotal (String × Option ℝ) entryLE where
  total a b := by
    rcases a with ⟨na, _ | x⟩ <;> rcases b with ⟨nb, _ | y⟩
    · exact Or.inl trivial
    · exact Or.inr trivial
    · exact Or.inl trivial
    · exact le_total x y

instance entryLE.instIsTrans : IsTrans (String × Option ℝ) entryLE where
  trans a b c hab hbc := by
    rcases a with ⟨na, _ | x⟩ <;> rcases b with ⟨nb, _ | y⟩ <;>
      rcases c with ⟨nc, _ | z⟩ <;>
      first
        | exact trivial
        | exact hab.elim
        | exact hbc.elim
        | exact le_trans hab hbc

/-- Lexicographic comparison of character lists by code point — Python's
string ordering, used by this pandas era when `pd.Series(dict)` sorts the
dict's keys to build the index. -/
def strLEb : List Char → List Char → Bool
  | [], _ => true
  | _ :: _, [] => false
  | a :: as, b :: bs => if a < b then true else if b < a then false else strLEb as bs

/-- Key order on series entries: by feature identifier, Python string
ordering. -/
def keyLE (a b : String × Option ℝ) : Prop := strLEb a.1.data b.1.data = true

instance keyLE.instDecidableRel : DecidableRel keyLE :=
  fun a b => inferInstanceAs (Decidable (strLEb a.1.data b.1.data = true))

/-- The embedding of `pd.Series(dict)` in the source's pandas era: the
series' index is the dict's keys in sorted (Python string) order, not
insertion order. -/
def pdSeriesOfDict (l : Series) : Series := List.insertionSort keyLE l

/-- The embedding of `pd.Series.sort_values()`: an ascending sort on values
(non-finite last, pandas `na_position='last'`). The source's default sort
kind is quicksort, whose tie order pandas does not guarantee; the model uses
a concrete stable sort — exact for the short series evaluated here, since
numpy's introsort falls back to insertion sort on small arrays — and no
theorem asserts a tie order beyond concrete evaluations of such short
series. -/
noncomputable def sortValues (l : Series) : Series := List.insertionSort entryLE l

/-- The embedding of `pd.Series.sum()`: skips non-finite entries
(`skipna=True`, pandas default). -/
noncomputable def seriesSum (l : Series) : ℝ := (l.map (fun e => e.2.getD 0)).sum

/-- Elementwise division of a series entry by a scalar: NaN stays NaN, and a
division by zero produces a non-finite value (numpy NaN/inf). -/
noncomputable def optDiv (v : Option ℝ) (s : ℝ) : Option ℝ :=
  match v with
  | none => none
  | some x => if s = 0 then none else some (x / s)

/-- Lines 72–73 of the source:
`importances = pd.Series(importances).sort_values()` followed by
`importances = importances / importances.sum()`, with `pd.Series(dict)`
building a key-sorted index first (this pandas era). -/
noncomputable def normalizeSeries (l : Series) : Series :=
  let series := pdSeriesOfDict l
  let sorted := sortValues series
  let s := seriesSum sorted
  sorted.map (fun e => (e.1, optDiv e.2 s))

/-- The two table locations the loop body distinguishes: the accessor-owned
`self.data_set.data` and the working copy `X_mutable`. -/
structure EngineState where
  datasetData : Table
  xMutable : Table
deriving DecidableEq, Repr

/-- Ghost instrumentation: every table passed to `modelinstance.predict` and
every `(feature_id, n_samples, method)` triple passed to
`generate_column_sample`, in call order. -/
structure Trace where
  predictCalls : List Table
  sampleCalls : List (String × ℕ × String)
deriving DecidableEq, Repr

/-- Outcome of a full or prematurely ended run of `feature_importance`: the Python return
value or exception, the final state of the two table locations, and the
call trace. -/
structure RunOut where
  result : Except PyError Series
  state : EngineState
  trace : Trace

/-- The `for feature_id in self.data_set.feature_ids:` loop of lines 61–70,
accumulating the dict `importances` entry by entry. Each iteration takes a
fresh copy of the accessor's table, overwrites the one column with the
drawn samples, re-scores the model and reduces the prediction delta. When
the drawn samples differ in count from the table's rows, the elementwise
subtraction of line 65 (and the column assignment of line 66) raise
`ValueError` before any `predict` call, which the guard embeds. -/
noncomputable def fiLoop (m : Model) (oracle : Sampler) (p0 : Pred) (n : ℕ) :
    List String → EngineState → Trace → Series → RunOut
  | [], s, tr, acc => ⟨Except.ok acc, s, tr⟩
  | f :: rest, s, tr, acc =>
    let s1 : EngineState := { s with xMutable := s.datasetData }
    let tr1 : Trace :=
      { tr with sampleCalls := tr.sampleCalls ++ [(f, n, "random-choice")] }
    match generate_column_sample oracle f n "random-choice" with
    | Except.error e => ⟨Except.error e, s1, tr1⟩
    | Except.ok samples =>
      if samples.length = (getColumn s1.xMutable f).length then
        let _feature_perturbations :=
          List.zipWith (fun a b => a - b) (getColumn s1.xMutable f) samples
        let s2 : EngineState := { s1 with xMutable := setColumn s1.xMutable f samples }
        let tr2 : Trace := { tr1 with predictCalls := tr1.predictCalls ++ [s2.xMutable] }
        match m s2.xMutable with
        | Except.error e => ⟨Except.error e, s2, tr2⟩
        | Except.ok newp =>
          let changes := matSub newp p0
          fiLoop m oracle p0 n rest s2 tr2 (acc ++ [(f, npMeanStd changes)])
      else
        ⟨Except.error (PyError.valueError "operands could not be broadcast together"),
          s1, tr1⟩

/-- The whole of `FeatureImportance.feature_importance` (lines 55–74),
instrumented with the state of the two table locations and the call
trace. -/
noncomputable def feature_importance_run (m : Model) (ds : Dataset)
    (oracle : Sampler) : RunOut :=
  match m ds.data with
  | Except.error e => ⟨Except.error e, ⟨ds.data, ds.data⟩, ⟨[ds.data], []⟩⟩
  | Except.ok p0 =>
    let out := fiLoop m oracle p0 p0.length ds.feature_ids
      ⟨ds.data, ds.data⟩ ⟨[ds.data], []⟩ []
    match out.result with
    | Except.error e => ⟨Except.error e, out.state, out.trace⟩
    | Except.ok raws => ⟨Except.ok (normalizeSeries raws), out.state, out.trace⟩

/-- The Python return value (or exception) of `feature_importance`. -/
noncomputable def feature_importance (m : Model) (ds : Dataset)
    (oracle : Sampler) : Except PyError Series :=
  (feature_importance_run m ds oracle).result

/-- The table the model is scored on for feature `f`: the working copy of
the dataset with column `f` overwritten by the oracle's `n` draws. -/
def perturbedTable (ds : Dataset) (oracle : Sampler) (n : ℕ) (f : String) : Table :=
  setColumn ds.data f (oracle f n)

/-- Outcome of the `try: from matplotlib import pyplot` block of
`plot_feature_importance`: the import succeeds, fails with `ImportError`
(backend missing), or fails with `RuntimeError` (no display). -/
inductive BackendStatus where
  | available
  | backendMissing
  | displayMissing
deriving DecidableEq, Repr

/-- Embedding of `FeatureImportance.plot_feature_importance` (lines 76–125): re-raise a
failed backend import as the matching typed error, otherwise compute the
importances and render them sorted ascending as a horizontal bar chart
(the rendered series is returned in place of the drawing side effect). -/
noncomputable def plot_feature_importance (backend : BackendStatus) (m : Model)
    (ds : Dataset) (oracle : Sampler) : Except PyError Series :=
  match backend with
  | BackendStatus.backendMissing =>
    Except.error (PyError.matplotlibUnavailableError
      "Matplotlib is required but unavailable on your system.")
  | BackendStatus.displayMissing =>
    Except.error (PyError.matplotlibDisplayError "Matplotlib unable to open display")
  | BackendStatus.available =>
    match feature_importance m ds oracle with
    | Except.error e => Except.error e
    | Except.ok imp => Except.ok (sortValues imp)

/-- Value of a successful prediction, with a junk default on the error case
(only ever read under a success hypothesis). -/
def okD (r : Except PyError Pred) : Pred :=
  match r with
  | Except.ok p => p
  | Except.error _ => []

/-- The dict `importances` accumulated by the loop, described directly: one
entry per feature id, in `feature_ids` order, holding the reduced delta of
that feature's perturbed re-scoring (meaningful under the hypothesis that
every `predict` call succeeded). -/
noncomputable def rawSeries (m : Model) (ds : Dataset) (oracle : Sampler)
    (p0 : Pred) : Series :=
  ds.feature_ids.map
    (fun f => (f, npMeanStd (matSub (okD (m (perturbedTable ds oracle p0.length f))) p0)))

/-- Written from the spec's words (§4.3 step 2f): the standard deviation of a
column — the square root of the mean of the squared deviations from the
column mean. -/
noncomputable def specStd (c : List Val) : ℝ :=
  Real.sqrt
    (((castCol c).map (fun x => (x - (castCol c).sum / c.length) ^ 2)).sum
      / c.length)

/-- Written from the spec's words (§4.3 step 2f): for each of the `k` output
dimensions take the standard deviation of the delta across rows, then
average those `k` standard deviations. -/
noncomputable def specReduce (k : ℕ) (D : Pred) : ℝ :=
  (((List.range k).map (fun j => specStd (colAt D j))).sum) / k

/-- Predicate: the call outcome is a raised `ConfigurationError`. -/
def isConfigurationError (r : Except PyError Series) : Prop :=
  ∃ s, r = Except.error (PyError.configurationError s)

/-- Concrete scenario K: a two-row, one-feature dataset under a model with
constant output `[[5], [5]]` regardless of input. -/
def dsK : Dataset := ⟨[("a", [1, 2])], ["a"]⟩

/-- Constant-output model of scenario K. -/
def mK : Model := fun _ => Except.ok [[5], [5]]

/-- Sampler of scenario K: always draws the value 1. -/
def orK : Sampler := fun _ n => List.replicate n 1

/-- Concrete scenario P: a two-row, one-feature dataset whose model echoes
column "a" as a single regression output. -/
def dsP : Dataset := ⟨[("a", [0, 2])], ["a"]⟩

/-- Echo model of scenario P. -/
def mP : Model := fun t => Except.ok ((getColumn t "a").map (fun x => [x]))

/-- Sampler of scenario P: draws the column values in swapped order. -/
def orP : Sampler := fun _ _ => [2, 0]

/-- Concrete scenario E: an empty (zero-row) one-feature dataset with a model
returning the empty prediction array. -/
def dsE : Dataset := ⟨[("a", [])], ["a"]⟩

/-- Model of scenario E: empty predictions on every input. -/
def mE : Model := fun _ => Except.ok []

/-- Sampler of scenario E. -/
def orE : Sampler := fun _ n => List.replicate n 0

/-- Concrete scenario F: a model whose `predict` always raises. -/
def mF : Model := fun _ => Except.error (PyError.modelException "boom")

/-- Concrete scenario G: a one-row, one-feature dataset whose model succeeds
on the unperturbed table and raises on any other table. -/
def dsG : Dataset := ⟨[("a", [3])], ["a"]⟩

/-- Model of scenario G: baseline succeeds, perturbed tables raise. -/
def mG : Model := fun t =>
  if t = dsG.data then Except.ok [[1]] else Except.error (PyError.modelException "fit failed")

/-- Sampler of scenario G: always draws the value 7, so the perturbed table
differs from the baseline table. -/
def orG : Sampler := fun _ n => List.replicate n 7

/-- Concrete scenario T: a two-row dataset under a model that returns a
three-row prediction array, separating the baseline prediction row count
from the dataset row count. -/
def dsT : Dataset := ⟨[("a", [1, 2])], ["a"]⟩

/-- Three-row constant model of scenario T. -/
def mT : Model := fun _ => Except.ok [[1], [2], [3]]

/-- Sampler of scenario T: always draws the value 9. -/
def orT : Sampler := fun _ n => List.replicate n 9

/-- Concrete scenario W: two identical feature columns inserted in
reverse-alphabetical order, under the row-sum model — both features get
exactly tied raw importances. -/
def dsW : Dataset := ⟨[("b", [0, 2]), ("a", [0, 2])], ["b", "a"]⟩

/-- Row-sum model of scenario W: one output per row, the sum of columns "b"
and "a". -/
def mW : Model := fun t =>
  Except.ok (List.zipWith (fun x y => [x + y]) (getColumn t "b") (getColumn t "a"))

/-- Sampler of scenario W: draws the column values in swapped order. -/
def orW : Sampler := fun _ _ => [2, 0]

theorem gcs_random_choice (oracle : Sampler) (f : String) (n : ℕ) :
    generate_column_sample oracle f n "random-choice" = Except.ok (oracle f n) := by
  simp [generate_column_sample]

theorem fiLoop_datasetData (m : Model) (oracle : Sampler) (p0 : Pred) (n : ℕ)
    (feats : List String) (s : EngineState) (tr : Trace) (acc : Series) :
    (fiLoop m oracle p0 n feats s tr acc).state.datasetData = s.datasetData := by
  induction feats generalizing s tr acc with
  | nil => rfl
  | cons f rest ih =>
    rw [fiLoop]
    simp only [gcs_random_choice]
    by_cases hlen : (oracle f n).length = (getColumn s.datasetData f).length
    · rw [if_pos hlen]
      rcases h : m (setColumn s.datasetData f (oracle f n)) with e | newp
      · simp only [h]
      · simp only [h]
        exact ih _ _ _
    · rw [if_neg hlen]

theorem fiLoop_result_ok (m : Model) (oracle : Sampler) (p0 : Pred) (n : ℕ)
    (feats : List String) (s : EngineState) (tr : Trace) (acc : Series)
    (h : ∀ f ∈ feats, (oracle f n).length = (getColumn s.datasetData f).length
      ∧ ∃ q, m (setColumn s.datasetData f (oracle f n)) = Except.ok q) :
    (fiLoop m oracle p0 n feats s tr acc).result
      = Except.ok (acc ++ feats.map
          (fun f => (f, npMeanStd (matSub (okD (m (setColumn s.datasetData f (oracle f n)))) p0)))) := by
  induction feats generalizing s tr acc with
  | nil => simp [fiLoop]
  | cons f rest ih =>
    obtain ⟨hlen, q, hq⟩ := h f (List.mem_cons_self f rest)
    rw [fiLoop]
    simp only [gcs_random_choice]
    rw [if_pos hlen]
    simp only [hq]
    rw [ih ⟨s.datasetData, setColumn s.datasetData f (oracle f n)⟩
        ⟨tr.predictCalls ++ [setColumn s.datasetData f (oracle f n)],
          tr.sampleCalls ++ [(f, n, "random-choice")]⟩
        (acc ++ [(f, npMeanStd (matSub q p0))])
        (fun g hg => h g (List.mem_cons_of_mem f hg))]
    simp [okD, hq, List.append_assoc]

theorem fiLoop_trace_ok (m : Model) (oracle : Sampler) (p0 : Pred) (n : ℕ)
    (feats : List String) (s : EngineState) (tr : Trace) (acc : Series)
    (h : ∀ f ∈ feats, (oracle f n).length = (getColumn s.datasetData f).length
      ∧ ∃ q, m (setColumn s.datasetData f (oracle f n)) = Except.ok q) :
    (fiLoop m oracle p0 n feats s tr acc).trace
      = ⟨tr.predictCalls ++ feats.map (fun f => setColumn s.datasetData f (oracle f n)),
         tr.sampleCalls ++ feats.map (fun f => (f, n, "random-choice"))⟩ := by
  induction feats generalizing s tr acc with
  | nil => simp [fiLoop]
  | cons f rest ih =>
    obtain ⟨hlen, q, hq⟩ := h f (List.mem_cons_self f rest)
    rw [fiLoop]
    simp only [gcs_random_choice]
    rw [if_pos hlen]
    simp only [hq]
    rw [ih ⟨s.datasetData, setColumn s.datasetData f (oracle f n)⟩
        ⟨tr.predictCalls ++ [setColumn s.datasetData f (oracle f n)],
          tr.sampleCalls ++ [(f, n, "random-choice")]⟩
        (acc ++ [(f, npMeanStd (matSub q p0))])
        (fun g hg => h g (List.mem_cons_of_mem f hg))]
    simp [List.append_assoc]

theorem fiLoop_error_first (m : Model) (oracle : Sampler) (p0 : Pred) (n : ℕ)
    (pre : List String) (f : String) (post : List String)
    (s : EngineState) (tr : Trace) (acc : Series) (e : PyError)
    (hok : ∀ g ∈ pre, (oracle g n).length = (getColumn s.datasetData g).length
      ∧ ∃ q, m (setColumn s.datasetData g (oracle g n)) = Except.ok q)
    (hflen : (oracle f n).length = (getColumn s.datasetData f).length)
    (hf : m (setColumn s.datasetData f (oracle f n)) = Except.error e) :
    (fiLoop m oracle p0 n (pre ++ f :: post) s tr acc).result = Except.error e := by
  induction pre generalizing s tr acc with
  | nil =>
    rw [List.nil_append, fiLoop]
    simp only [gcs_random_choice]
    rw [if_pos hflen]
    simp only [hf]
  | cons g rest ih =>
    obtain ⟨hlen, q, hq⟩ := hok g (List.mem_cons_self g rest)
    rw [List.cons_append, fiLoop]
    simp only [gcs_random_choice]
    rw [if_pos hlen]
    simp only [hq]
    exact ih _ _ _ (fun g' hg' => hok g' (List.mem_cons_of_mem g hg')) hflen hf

theorem feature_importance_ok (m : Model) (ds : Dataset) (oracle : Sampler)
    (p0 : Pred) (hp0 : m ds.data = Except.ok p0)
    (hall : ∀ f ∈ ds.feature_ids,
      (oracle f p0.length).length = (getColumn ds.data f).length
      ∧ ∃ q, m (perturbedTable ds oracle p0.length f) = Except.ok q) :
    feature_importance m ds oracle
      = Except.ok (normalizeSeries (rawSeries m ds oracle p0)) := by
  unfold feature_importance feature_importance_run
  rw [hp0]
  have hres := fiLoop_result_ok m oracle p0 p0.length ds.feature_ids
    ⟨ds.data, ds.data⟩ ⟨[ds.data], []⟩ []
    (by simpa [perturbedTable] using hall)
  simp only [hres, List.nil_append]
  simp [rawSeries, perturbedTable]

theorem feature_importance_trace (m : Model) (ds : Dataset) (oracle : Sampler)
    (p0 : Pred) (hp0 : m ds.data = Except.ok p0)
    (hall : ∀ f ∈ ds.feature_ids,
      (oracle f p0.length).length = (getColumn ds.data f).length
      ∧ ∃ q, m (perturbedTable ds oracle p0.length f) = Except.ok q) :
    (feature_importance_run m ds oracle).trace
      = ⟨ds.data :: ds.feature_ids.map (perturbedTable ds oracle p0.length),
         ds.feature_ids.map (fun f => (f, p0.length, "random-choice"))⟩ := by
  unfold feature_importance_run
  rw [hp0]
  have htr := fiLoop_trace_ok m oracle p0 p0.length ds.feature_ids
    ⟨ds.data, ds.data⟩ ⟨[ds.data], []⟩ []
    (by simpa [perturbedTable] using hall)
  have hres := fiLoop_result_ok m oracle p0 p0.length ds.feature_ids
    ⟨ds.data, ds.data⟩ ⟨[ds.data], []⟩ []
    (by simpa [perturbedTable] using hall)
  simp only [hres]
  simp [htr, perturbedTable]

theorem listStd_cast (c : List Val) :
    listStd (castCol c) = specStd c := by
  unfold listStd specStd listVar listMean
  rw [show (castCol c).length = c.length from List.length_map _ _]

theorem npMeanStd_some (D : Pred) (h1 : D.length ≠ 0) (h2 : numCols D ≠ 0) :
    npMeanStd D
      = some ((((List.range (numCols D)).map
          (fun j => listStd (castCol (colAt D j)))).sum) / (numCols D)) := by
  rw [npMeanStd, if_neg (by simp [h1, h2])]

theorem npMeanStd_eq_specReduce (D : Pred) (k : ℕ) (hne : D.length ≠ 0)
    (hk : numCols D = k) (hkpos : k ≠ 0) :
    npMeanStd D = some (specReduce k D) := by
  rw [npMeanStd_some D hne (by rw [hk]; exact hkpos), hk, specReduce]
  have hfun : (fun j => listStd (castCol (colAt D j)))
      = (fun j => specStd (colAt D j)) :=
    funext (fun j => listStd_cast (colAt D j))
  rw [hfun]

theorem npMeanStd_some_nonneg (D : Pred) (h1 : D.length ≠ 0) (h2 : numCols D ≠ 0) :
    ∃ x : ℝ, npMeanStd D = some x ∧ 0 ≤ x := by
  refine ⟨_, npMeanStd_some D h1 h2, ?_⟩
  apply div_nonneg
  · apply List.sum_nonneg
    intro x hx
    obtain ⟨j, _, rfl⟩ := List.mem_map.mp hx
    exact Real.sqrt_nonneg _
  · exact Nat.cast_nonneg _

theorem matSub_shape (q p0 : Pred) (n k : ℕ) (hn : n ≠ 0) (_hk : k ≠ 0)
    (hq : q.length = n) (hp : p0.length = n)
    (hqr : ∀ r ∈ q, r.length = k) (hpr : ∀ r ∈ p0, r.length = k) :
    (matSub q p0).length = n ∧ numCols (matSub q p0) = k := by
  constructor
  · simp [matSub, hq, hp]
  · rcases q with _ | ⟨qa, q'⟩
    · exact (hn hq.symm).elim
    · rcases p0 with _ | ⟨pa, p'⟩
      · exact (hn hp.symm).elim
      · simp [matSub, numCols, hqr qa (List.mem_cons_self _ _),
          hpr pa (List.mem_cons_self _ _)]

theorem list_sum_pos_of_mem (l : List ℝ) (h0 : ∀ x ∈ l, 0 ≤ x) (x : ℝ)
    (hx : x ∈ l) (hxpos : 0 < x) : 0 < l.sum := by
  induction l with
  | nil => cases hx
  | cons a t ih =>
    rw [List.sum_cons]
    have ht : 0 ≤ t.sum :=
      List.sum_nonneg (fun y hy => h0 y (List.mem_cons_of_mem _ hy))
    rcases List.mem_cons.mp hx with rfl | hmem
    · linarith
    · have ha := h0 a (List.mem_cons_self _ _)
      have := ih (fun y hy => h0 y (List.mem_cons_of_mem _ hy)) hmem
      linarith

theorem list_map_div_sum (l : List ℝ) (s : ℝ) :
    (l.map (fun x => x / s)).sum = l.sum / s := by
  induction l with
  | nil => simp
  | cons a t ih => simp [ih, add_div]

theorem seriesSum_perm (l l' : Series) (h : l.Perm l') : seriesSum l = seriesSum l' := by
  unfold seriesSum
  exact (h.map _).sum_eq

theorem npMeanStd_D2 : npMeanStd [[2], [-2]] = some 2 := by
  have hvar : listVar (castCol [2, -2]) = 4 := by
    unfold listVar listMean castCol
    norm_num
  have hstd : listStd (castCol [2, -2]) = 2 := by
    unfold listStd
    rw [hvar, show (4 : ℝ) = 2 ^ 2 by norm_num,
      Real.sqrt_sq (by norm_num : (0 : ℝ) ≤ 2)]
  rw [npMeanStd_some _ (by decide) (by decide)]
  rw [show List.range (numCols [[2], [-2]]) = [0] from rfl]
  simp [numCols, colAt, hstd]

theorem npMeanStd_nonneg (D : Pred) (x : ℝ) (h : npMeanStd D = some x) : 0 ≤ x := by
  by_cases h1 : D.length = 0 ∨ numCols D = 0
  · rw [npMeanStd, if_pos h1] at h
    exact absurd h (by simp)
  · push_neg at h1
    obtain ⟨y, hy, hy0⟩ := npMeanStd_some_nonneg D h1.1 h1.2
    rw [hy] at h
    injection h with h'
    exact h' ▸ hy0

theorem rawSeries_nonneg (m : Model) (ds : Dataset) (oracle : Sampler) (p0 : Pred) :
    ∀ e ∈ rawSeries m ds oracle p0, ∀ x : ℝ, e.2 = some x → 0 ≤ x := by
  intro e he x hx
  unfold rawSeries at he
  obtain ⟨f, _, rfl⟩ := List.mem_map.mp he
  exact npMeanStd_nonneg _ x hx

theorem seriesSum_nonneg_of (l : Series)
    (h : ∀ e ∈ l, ∀ x : ℝ, e.2 = some x → 0 ≤ x) : 0 ≤ seriesSum l := by
  apply List.sum_nonneg
  intro y hy
  obtain ⟨e, he, rfl⟩ := List.mem_map.mp hy
  rcases hv : e.2 with _ | x
  · simp [hv]
  · exact h e he x hv

theorem optDiv_mono (s : ℝ) (hs : 0 ≤ s) (a b : Option ℝ) (h : valLE a b) :
    valLE (optDiv a s) (optDiv b s) := by
  rcases a with _ | x <;> rcases b with _ | y
  · exact trivial
  · exact h.elim
  · rcases hd : optDiv (some x) s with _ | z <;> exact trivial
  · by_cases hs0 : s = 0
    · simp only [optDiv]
      rw [if_pos hs0, if_pos hs0]
      exact trivial
    · have hspos : 0 < s := lt_of_le_of_ne hs (Ne.symm hs0)
      simp only [optDiv]
      rw [if_neg hs0, if_neg hs0]
      show x / s ≤ y / s
      exact (div_le_div_iff_of_pos_right hspos).mpr h

/-- Claim C1: for every feature `f` processed by `feature_importance`, the
raw importance score recorded for `f` equals the reduction of the prediction
delta `D_f = P_f - P0` (shape `(n, k)`) computed as: for each of the `k`
output dimensions, the standard deviation of `D_f` across the `n` rows,
averaged across the `k` dimensions (`specReduce`, written from the spec's
words). -/
theorem c1_raw_importance_is_mean_of_stds (m : Model) (ds : Dataset)
    (oracle : Sampler) (p0 q : Pred) (f : String) (k : ℕ)
    (hp0 : m ds.data = Except.ok p0)
    (hall : ∀ g ∈ ds.feature_ids,
      (oracle g p0.length).length = (getColumn ds.data g).length
      ∧ ∃ r, m (perturbedTable ds oracle p0.length g) = Except.ok r)
    (hf : f ∈ ds.feature_ids)
    (hq : m (perturbedTable ds oracle p0.length f) = Except.ok q)
    (hne : (matSub q p0).length ≠ 0)
    (hk : numCols (matSub q p0) = k) (hkpos : k ≠ 0) :
    feature_importance m ds oracle
        = Except.ok (normalizeSeries (rawSeries m ds oracle p0))
      ∧ (f, npMeanStd (matSub q p0)) ∈ rawSeries m ds oracle p0
      ∧ npMeanStd (matSub q p0) = some (specReduce k (matSub q p0)) := by
  have hok : okD (m (perturbedTable ds oracle p0.length f)) = q := by rw [hq]; rfl
  refine ⟨feature_importance_ok m ds oracle p0 hp0 hall, ?_,
    npMeanStd_eq_specReduce _ k hne hk hkpos⟩
  rw [← hok]
  exact List.mem_map_of_mem _ hf

/-- Witness for C1 at scenario P: baseline predictions `[[0], [2]]`, the
perturbed re-scoring gives `[[2], [0]]`, and the raw score of feature "a"
is the spec reduction of the delta. -/
theorem c1_witness :
    mP dsP.data = Except.ok [[0], [2]]
    ∧ mP (perturbedTable dsP orP (List.length [[0], [2]]) "a") = Except.ok [[2], [0]]
    ∧ (feature_importance mP dsP orP
          = Except.ok (normalizeSeries (rawSeries mP dsP orP [[0], [2]]))
        ∧ ("a", npMeanStd (matSub [[2], [0]] [[0], [2]])) ∈ rawSeries mP dsP orP [[0], [2]]
        ∧ npMeanStd (matSub [[2], [0]] [[0], [2]])
            = some (specReduce 1 (matSub [[2], [0]] [[0], [2]]))) := by
  refine ⟨rfl, rfl, c1_raw_importance_is_mean_of_stds mP dsP orP [[0], [2]] [[2], [0]] "a" 1
    rfl ?_ (by simp [dsP]) rfl (by decide) (by decide) (by decide)⟩
  intro g hg
  simp only [dsP] at hg
  rw [List.mem_singleton] at hg
  subst hg
  exact ⟨rfl, [[2], [0]], rfl⟩

/-- Claim C2 (code bug): under the constant-output model of scenario K every
raw importance is zero (`some 0`) and their sum is zero, yet
`feature_importance` performs the unguarded division by that zero sum and
returns normally with a non-finite (NaN) score — no
`DegenerateResultError`-style failure is surfaced. -/
theorem c2_degenerate_sum_divides_unguarded :
    npMeanStd (matSub [[5], [5]] [[5], [5]]) = some 0
    ∧ rawSeries mK dsK orK [[5], [5]] = [("a", some 0)]
    ∧ feature_importance mK dsK orK = Except.ok [("a", none)] := by
  refine ⟨?_, ?_, ?_⟩
  · simp [matSub, npMeanStd, numCols, colAt, castCol, listStd, listVar, listMean]
  · simp [rawSeries, dsK, perturbedTable, setColumn, mK, okD, matSub, npMeanStd,
      numCols, colAt, castCol, listStd, listVar, listMean]
  · simp [feature_importance, feature_importance_run, mK, dsK, orK, fiLoop,
      generate_column_sample, setColumn, getColumn, matSub, npMeanStd, numCols,
      colAt, castCol, listStd, listVar, listMean, normalizeSeries, sortValues,
      pdSeriesOfDict, keyLE, strLEb, seriesSum, optDiv, List.insertionSort,
      List.orderedInsert]

/-- Claim C6: `feature_importance` never modifies the accessor-owned dataset:
the per-feature mutation targets only the working copy `X_mutable`, and the
`data_set.data` location is unchanged when the call completes (on success and
on every failure path alike). -/
theorem c6_dataset_never_modified (m : Model) (ds : Dataset) (oracle : Sampler) :
    (feature_importance_run m ds oracle).state.datasetData = ds.data := by
  unfold feature_importance_run
  rcases h : m ds.data with e | p0
  · simp [h]
  · simp only [h]
    rcases hr : (fiLoop m oracle p0 p0.length ds.feature_ids
        ⟨ds.data, ds.data⟩ ⟨[ds.data], []⟩ []).result with e | raws <;>
      simp only [hr] <;>
      exact fiLoop_datasetData m oracle p0 p0.length ds.feature_ids
        ⟨ds.data, ds.data⟩ ⟨[ds.data], []⟩ []

/-- Claim C3: whenever at least one feature has nonzero raw importance (and
the model respects the prediction-shape contract), the scores of the
returned series are all finite and sum to exactly 1. -/
theorem c3_scores_sum_to_one (m : Model) (ds : Dataset) (oracle : Sampler)
    (p0 : Pred) (k : ℕ)
    (hp0 : m ds.data = Except.ok p0)
    (hn : p0.length ≠ 0) (hk : k ≠ 0)
    (hp0rows : ∀ r ∈ p0, r.length = k)
    (hall : ∀ f ∈ ds.feature_ids,
      (oracle f p0.length).length = (getColumn ds.data f).length
      ∧ ∃ q, m (perturbedTable ds oracle p0.length f) = Except.ok q
        ∧ q.length = p0.length ∧ ∀ r ∈ q, r.length = k)
    (hnz : ∃ f ∈ ds.feature_ids,
      npMeanStd (matSub (okD (m (perturbedTable ds oracle p0.length f))) p0) ≠ some 0) :
    ∃ res, feature_importance m ds oracle = Except.ok res
      ∧ (∀ e ∈ res, e.2.isSome = true)
      ∧ (res.map (fun e => e.2.getD 0)).sum = 1 := by
  have hall' : ∀ f ∈ ds.feature_ids,
      (oracle f p0.length).length = (getColumn ds.data f).length
      ∧ ∃ q, m (perturbedTable ds oracle p0.length f) = Except.ok q :=
    fun f hf => ⟨(hall f hf).1, ((hall f hf).2).imp (fun q h => h.1)⟩
  have hfi := feature_importance_ok m ds oracle p0 hp0 hall'
  have hvals : ∀ e ∈ rawSeries m ds oracle p0, ∃ x, e.2 = some x ∧ 0 ≤ x := by
    intro e he
    unfold rawSeries at he
    obtain ⟨f, hf, rfl⟩ := List.mem_map.mp he
    obtain ⟨q, hq, hqlen, hqrows⟩ := (hall f hf).2
    have hokd : okD (m (perturbedTable ds oracle p0.length f)) = q := by rw [hq]; rfl
    simp only [hokd]
    obtain ⟨hlen, hcols⟩ := matSub_shape q p0 p0.length k hn hk hqlen rfl hqrows hp0rows
    exact npMeanStd_some_nonneg _ (by rw [hlen]; exact hn) (by rw [hcols]; exact hk)
  have hperm : (sortValues (pdSeriesOfDict (rawSeries m ds oracle p0))).Perm
      (rawSeries m ds oracle p0) :=
    (List.perm_insertionSort entryLE _).trans (List.perm_insertionSort keyLE _)
  have hvals' : ∀ e ∈ sortValues (pdSeriesOfDict (rawSeries m ds oracle p0)),
      ∃ x, e.2 = some x ∧ 0 ≤ x :=
    fun e he => hvals e (hperm.subset he)
  have hnonneg : ∀ y ∈ (rawSeries m ds oracle p0).map (fun e => e.2.getD 0), 0 ≤ y := by
    intro y hy
    obtain ⟨e, he, rfl⟩ := List.mem_map.mp hy
    obtain ⟨x, hx, hx0⟩ := hvals e he
    rw [hx]
    exact hx0
  obtain ⟨f, hf, hfne⟩ := hnz
  have hment : (f, npMeanStd (matSub (okD (m (perturbedTable ds oracle p0.length f))) p0))
      ∈ rawSeries m ds oracle p0 := by
    unfold rawSeries
    exact List.mem_map_of_mem _ hf
  obtain ⟨x, hx, hx0⟩ := hvals _ hment
  have hx2 : npMeanStd (matSub (okD (m (perturbedTable ds oracle p0.length f))) p0)
      = some x := hx
  have hxpos : 0 < x := by
    apply lt_of_le_of_ne hx0
    intro h0
    exact hfne (by rw [← h0] at hx2; exact hx2)
  have hxmem : x ∈ (rawSeries m ds oracle p0).map (fun e => e.2.getD 0) := by
    have h1 := List.mem_map_of_mem (fun e : String × Option ℝ => e.2.getD 0) hment
    simpa [hx2] using h1
  have hsum_pos : 0 < seriesSum (rawSeries m ds oracle p0) :=
    list_sum_pos_of_mem _ hnonneg x hxmem hxpos
  have hs_ne : seriesSum (sortValues (pdSeriesOfDict (rawSeries m ds oracle p0))) ≠ 0 := by
    rw [seriesSum_perm _ _ hperm]
    exact ne_of_gt hsum_pos
  refine ⟨normalizeSeries (rawSeries m ds oracle p0), hfi, ?_, ?_⟩
  · intro e he
    simp only [normalizeSeries] at he
    obtain ⟨e', he', rfl⟩ := List.mem_map.mp he
    obtain ⟨x', hx', _⟩ := hvals' e' he'
    simp [optDiv, hx', hs_ne]
  · have hmapeq : (normalizeSeries (rawSeries m ds oracle p0)).map (fun e => e.2.getD 0)
        = (sortValues (pdSeriesOfDict (rawSeries m ds oracle p0))).map
            (fun e => e.2.getD 0
              / seriesSum (sortValues (pdSeriesOfDict (rawSeries m ds oracle p0)))) := by
      simp only [normalizeSeries]
      rw [List.map_map]
      apply List.map_congr_left
      intro e' he'
      obtain ⟨x', hx', _⟩ := hvals' e' he'
      simp [Function.comp, optDiv, hx', hs_ne]
    rw [hmapeq]
    rw [show (sortValues (pdSeriesOfDict (rawSeries m ds oracle p0))).map
          (fun e => e.2.getD 0
            / seriesSum (sortValues (pdSeriesOfDict (rawSeries m ds oracle p0))))
        = ((sortValues (pdSeriesOfDict (rawSeries m ds oracle p0))).map
              (fun e => e.2.getD 0)).map
            (fun y => y / seriesSum (sortValues (pdSeriesOfDict (rawSeries m ds oracle p0))))
      from by rw [List.map_map]; rfl]
    rw [list_map_div_sum]
    exact div_self hs_ne

/-- Witness for C3 at scenario P: the echo model has nonzero raw importance
for feature "a", and the returned scores sum to 1. -/
theorem c3_witness :
    mP dsP.data = Except.ok [[0], [2]]
    ∧ (∃ res, feature_importance mP dsP orP = Except.ok res
        ∧ (∀ e ∈ res, e.2.isSome = true)
        ∧ (res.map (fun e => e.2.getD 0)).sum = 1) := by
  refine ⟨rfl, c3_scores_sum_to_one mP dsP orP [[0], [2]] 1 rfl (by decide) (by decide)
    (by decide) ?_ ?_⟩
  · intro g hg
    simp only [dsP] at hg
    rw [List.mem_singleton] at hg
    subst hg
    exact ⟨rfl, [[2], [0]], rfl, rfl, by decide⟩
  · refine ⟨"a", by simp [dsP], ?_⟩
    show npMeanStd (matSub [[2], [0]] [[0], [2]]) ≠ some 0
    rw [show matSub [[2], [0]] [[0], [2]] = [[2], [-2]] from by norm_num [matSub],
      npMeanStd_D2]
    simp

/-- Counterexample to claim C4: in scenario W the two features tie at raw
score 2 and were inserted in order `["b", "a"]`, but the returned series is
ordered `["a", "b"]` — `pd.Series(dict)` key-sorts the index in this pandas
era, so ties do not follow feature-identifier insertion order. -/
theorem c4_counterexample :
    rawSeries mW dsW orW [[0], [4]] = [("b", some 2), ("a", some 2)]
    ∧ feature_importance mW dsW orW
        = Except.ok [("a", some (1 / 2)), ("b", some (1 / 2))]
    ∧ (["a", "b"] : List String) ≠ dsW.feature_ids := by
  have hpb : perturbedTable dsW orW (List.length ([[0], [4]] : Pred)) "b"
      = [("b", [2, 0]), ("a", [0, 2])] := by
    simp [perturbedTable, dsW, orW, setColumn]
  have hpa : perturbedTable dsW orW (List.length ([[0], [4]] : Pred)) "a"
      = [("b", [0, 2]), ("a", [2, 0])] := by
    simp [perturbedTable, dsW, orW, setColumn]
  have hmb : mW [("b", [2, 0]), ("a", [0, 2])] = Except.ok [[2], [2]] := by
    simp [mW, getColumn]
  have hma : mW [("b", [0, 2]), ("a", [2, 0])] = Except.ok [[2], [2]] := by
    simp [mW, getColumn]
  have hms : matSub [[2], [2]] [[0], [4]] = [[2], [-2]] := by
    simp [matSub]
    norm_num
  have hraw : rawSeries mW dsW orW [[0], [4]] = [("b", some 2), ("a", some 2)] := by
    unfold rawSeries
    rw [show dsW.feature_ids = ["b", "a"] from rfl]
    simp only [List.map_cons, List.map_nil, hpb, hpa, hmb, hma, okD, hms, npMeanStd_D2]
  have hkey : pdSeriesOfDict [("b", (some 2 : Option ℝ)), ("a", some 2)]
      = [("a", some 2), ("b", some 2)] := by
    unfold pdSeriesOfDict
    simp only [List.insertionSort, List.orderedInsert]
    rw [if_neg (by decide)]
  have hsort : sortValues [("a", (some 2 : Option ℝ)), ("b", some 2)]
      = [("a", some 2), ("b", some 2)] := by
    unfold sortValues
    simp only [List.insertionSort, List.orderedInsert]
    rw [if_pos (show entryLE ("a", (some 2 : Option ℝ)) ("b", some 2) from le_refl (2 : ℝ))]
  have hsum : seriesSum [("a", (some 2 : Option ℝ)), ("b", some 2)] = 4 := by
    norm_num [seriesSum]
  have hnorm : normalizeSeries [("b", (some 2 : Option ℝ)), ("a", some 2)]
      = [("a", some (1 / 2)), ("b", some (1 / 2))] := by
    simp only [normalizeSeries, hkey, hsort, hsum]
    simp only [List.map_cons, List.map_nil, optDiv]
    rw [if_neg (by norm_num : ¬ ((4 : ℝ) = 0))]
    norm_num
  have hallW : ∀ g ∈ dsW.feature_ids,
      (orW g (List.length ([[0], [4]] : Pred))).length = (getColumn dsW.data g).length
      ∧ ∃ q, mW (perturbedTable dsW orW (List.length ([[0], [4]] : Pred)) g)
          = Except.ok q := by
    intro g hg
    simp only [dsW] at hg
    rw [List.mem_cons, List.mem_singleton] at hg
    rcases hg with rfl | rfl
    · exact ⟨rfl, ⟨[[2], [2]], by rw [hpb]; exact hmb⟩⟩
    · exact ⟨rfl, ⟨[[2], [2]], by rw [hpa]; exact hma⟩⟩
  have hbase : mW dsW.data = Except.ok [[0], [4]] := by
    simp [mW, dsW, getColumn]
    norm_num
  refine ⟨hraw, ?_, by decide⟩
  rw [feature_importance_ok mW dsW orW [[0], [4]] hbase hallW, hraw, hnorm]

/-- Claim C4 amended: normalization sorts the features ascending by raw
score and divides every score by the sum of all the raw scores; it does not
guarantee any particular order among tied scores (in particular ties do not
follow feature-identifier insertion order). -/
theorem c4_amended_sorted_and_divided (m : Model) (ds : Dataset) (oracle : Sampler)
    (p0 : Pred)
    (hp0 : m ds.data = Except.ok p0)
    (hall : ∀ g ∈ ds.feature_ids,
      (oracle g p0.length).length = (getColumn ds.data g).length
      ∧ ∃ r, m (perturbedTable ds oracle p0.length g) = Except.ok r) :
    ∃ res, feature_importance m ds oracle = Except.ok res
      ∧ List.Sorted entryLE res
      ∧ res.Perm ((rawSeries m ds oracle p0).map
          (fun e => (e.1, optDiv e.2 (seriesSum (rawSeries m ds oracle p0))))) := by
  have hperm2 : (sortValues (pdSeriesOfDict (rawSeries m ds oracle p0))).Perm
      (pdSeriesOfDict (rawSeries m ds oracle p0)) :=
    List.perm_insertionSort entryLE _
  have hperm1 : (pdSeriesOfDict (rawSeries m ds oracle p0)).Perm
      (rawSeries m ds oracle p0) :=
    List.perm_insertionSort keyLE _
  have hs_eq : seriesSum (sortValues (pdSeriesOfDict (rawSeries m ds oracle p0)))
      = seriesSum (rawSeries m ds oracle p0) :=
    (seriesSum_perm _ _ hperm2).trans (seriesSum_perm _ _ hperm1)
  have hre : normalizeSeries (rawSeries m ds oracle p0)
      = (sortValues (pdSeriesOfDict (rawSeries m ds oracle p0))).map
          (fun e => (e.1, optDiv e.2 (seriesSum (rawSeries m ds oracle p0)))) := by
    simp only [normalizeSeries]
    rw [hs_eq]
  have hs_nonneg : 0 ≤ seriesSum (rawSeries m ds oracle p0) :=
    seriesSum_nonneg_of _ (rawSeries_nonneg m ds oracle p0)
  refine ⟨normalizeSeries (rawSeries m ds oracle p0),
    feature_importance_ok m ds oracle p0 hp0 hall, ?_, ?_⟩
  · rw [hre]
    have hsorted :=
      List.sorted_insertionSort entryLE (pdSeriesOfDict (rawSeries m ds oracle p0))
    exact hsorted.map _
      (fun a b hab => optDiv_mono _ hs_nonneg a.2 b.2 hab)
  · rw [hre]
    exact (hperm2.map _).trans (hperm1.map _)

/-- Witness for the amended C4 at scenario P. -/
theorem c4_witness :
    mP dsP.data = Except.ok [[0], [2]]
    ∧ (∃ res, feature_importance mP dsP orP = Except.ok res
        ∧ List.Sorted entryLE res
        ∧ res.Perm ((rawSeries mP dsP orP [[0], [2]]).map
            (fun e => (e.1, optDiv e.2 (seriesSum (rawSeries mP dsP orP [[0], [2]])))))) :=
  ⟨rfl, c4_amended_sorted_and_divided mP dsP orP [[0], [2]] rfl (by
    intro g hg
    simp only [dsP] at hg
    rw [List.mem_singleton] at hg
    subst hg
    exact ⟨rfl, [[2], [0]], rfl⟩)⟩

theorem normalizeSeries_keys_perm (m : Model) (ds : Dataset) (oracle : Sampler)
    (p0 : Pred) :
    ((normalizeSeries (rawSeries m ds oracle p0)).map Prod.fst).Perm ds.feature_ids := by
  have h1 : (normalizeSeries (rawSeries m ds oracle p0)).map Prod.fst
      = (sortValues (pdSeriesOfDict (rawSeries m ds oracle p0))).map Prod.fst := by
    simp only [normalizeSeries]
    rw [List.map_map]
    rfl
  have h3 : (rawSeries m ds oracle p0).map Prod.fst = ds.feature_ids := by
    unfold rawSeries
    rw [List.map_map,
      show (Prod.fst ∘ fun f =>
          (f, npMeanStd (matSub (okD (m (perturbedTable ds oracle p0.length f))) p0)))
        = id from rfl,
      List.map_id]
  rw [h1]
  have h2 : ((sortValues (pdSeriesOfDict (rawSeries m ds oracle p0))).map Prod.fst).Perm
      ((rawSeries m ds oracle p0).map Prod.fst) :=
    ((List.perm_insertionSort entryLE _).trans (List.perm_insertionSort keyLE _)).map
      Prod.fst
  refine h2.trans ?_
  rw [h3]

/-- Claim C5: the key set of the returned series is exactly
`dataset.feature_ids` — a permutation of it as a list, hence equal as a set,
with no omissions or additions. -/
theorem c5_keys_are_feature_ids (m : Model) (ds : Dataset) (oracle : Sampler)
    (p0 : Pred)
    (hp0 : m ds.data = Except.ok p0)
    (hall : ∀ g ∈ ds.feature_ids,
      (oracle g p0.length).length = (getColumn ds.data g).length
      ∧ ∃ r, m (perturbedTable ds oracle p0.length g) = Except.ok r) :
    ∃ res, feature_importance m ds oracle = Except.ok res
      ∧ (res.map Prod.fst).Perm ds.feature_ids :=
  ⟨_, feature_importance_ok m ds oracle p0 hp0 hall,
    normalizeSeries_keys_perm m ds oracle p0⟩

/-- Witness for C5 at scenario P. -/
theorem c5_witness :
    mP dsP.data = Except.ok [[0], [2]]
    ∧ (∃ res, feature_importance mP dsP orP = Except.ok res
        ∧ (res.map Prod.fst).Perm dsP.feature_ids) :=
  ⟨rfl, c5_keys_are_feature_ids mP dsP orP [[0], [2]] rfl (by
    intro g hg
    simp only [dsP] at hg
    rw [List.mem_singleton] at hg
    subst hg
    exact ⟨rfl, [[2], [0]], rfl⟩)⟩

/-- Counterexample to claim C7: on the empty (zero-row) dataset of scenario E
`feature_importance` does not fail with `ConfigurationError` — it returns
normally, with a NaN score for the one feature. -/
theorem c7_counterexample :
    ¬ isConfigurationError (feature_importance mE dsE orE)
    ∧ feature_importance mE dsE orE = Except.ok [("a", none)] := by
  have heval : feature_importance mE dsE orE = Except.ok [("a", none)] := by
    simp [feature_importance, feature_importance_run, mE, dsE, orE, fiLoop,
      generate_column_sample, setColumn, getColumn, matSub, npMeanStd, numCols,
      colAt, castCol, normalizeSeries, sortValues, pdSeriesOfDict, keyLE, strLEb,
      seriesSum, optDiv, List.insertionSort, List.orderedInsert]
  refine ⟨?_, heval⟩
  rintro ⟨s, hs⟩
  rw [heval] at hs
  exact Except.noConfusion hs

/-- Claim C7 amended: calling `feature_importance` on an empty dataset
(baseline prediction of 0 rows, every perturbed re-scoring returning 0 rows)
does not raise `ConfigurationError` or anything else — the call returns
normally, with every feature's importance the non-finite NaN value. -/
theorem c7_amended_empty_dataset_returns_nan (m : Model) (ds : Dataset)
    (oracle : Sampler)
    (hp0 : m ds.data = Except.ok ([] : Pred))
    (hall : ∀ f ∈ ds.feature_ids,
      (oracle f 0).length = (getColumn ds.data f).length
      ∧ m (perturbedTable ds oracle 0 f) = Except.ok ([] : Pred)) :
    ∃ res, feature_importance m ds oracle = Except.ok res
      ∧ (res.map Prod.fst).Perm ds.feature_ids
      ∧ ∀ e ∈ res, e.2 = none := by
  have hall' : ∀ f ∈ ds.feature_ids,
      (oracle f (List.length ([] : Pred))).length = (getColumn ds.data f).length
      ∧ ∃ q, m (perturbedTable ds oracle (List.length ([] : Pred)) f) = Except.ok q :=
    fun f hf => ⟨(hall f hf).1, ⟨[], (hall f hf).2⟩⟩
  refine ⟨_, feature_importance_ok m ds oracle [] hp0 hall',
    normalizeSeries_keys_perm m ds oracle [], ?_⟩
  intro e he
  simp only [normalizeSeries] at he
  obtain ⟨e', he', rfl⟩ := List.mem_map.mp he
  have he'' := ((List.perm_insertionSort entryLE _).trans
    (List.perm_insertionSort keyLE _)).subset he'
  unfold rawSeries at he''
  obtain ⟨f, hf, rfl⟩ := List.mem_map.mp he''
  show optDiv (npMeanStd (matSub
    (okD (m (perturbedTable ds oracle (List.length ([] : Pred)) f))) [])) _ = none
  rw [show matSub (okD (m (perturbedTable ds oracle (List.length ([] : Pred)) f))) []
      = [] from by simp [matSub]]
  rfl

/-- Witness for the amended C7 at scenario E. -/
theorem c7_witness :
    mE dsE.data = Except.ok ([] : Pred)
    ∧ (∃ res, feature_importance mE dsE orE = Except.ok res
        ∧ (res.map Prod.fst).Perm dsE.feature_ids
        ∧ ∀ e ∈ res, e.2 = none) :=
  ⟨rfl, c7_amended_empty_dataset_returns_nan mE dsE orE rfl (by
    intro f hf
    simp only [dsE] at hf
    rw [List.mem_singleton] at hf
    subst hf
    exact ⟨rfl, rfl⟩)⟩

/-- Claim C8: a failure raised inside `model.predict` propagates unchanged to
the caller — if the baseline predict raises `e` the call raises `e`, and if
the baseline succeeds and the re-scoring of feature `f` raises `e` (every
feature before `f` having scored without failure), the call raises that same
`e`; nothing is suppressed, masked or retried. -/
theorem c8_model_errors_propagate (m : Model) (ds : Dataset) (oracle : Sampler)
    (e : PyError) :
    (m ds.data = Except.error e → feature_importance m ds oracle = Except.error e)
    ∧ (∀ p0 pre f post, m ds.data = Except.ok p0 →
        ds.feature_ids = pre ++ f :: post →
        (∀ g ∈ pre, (oracle g p0.length).length = (getColumn ds.data g).length
          ∧ ∃ q, m (perturbedTable ds oracle p0.length g) = Except.ok q) →
        (oracle f p0.length).length = (getColumn ds.data f).length →
        m (perturbedTable ds oracle p0.length f) = Except.error e →
        feature_importance m ds oracle = Except.error e) := by
  constructor
  · intro h
    unfold feature_importance feature_importance_run
    simp [h]
  · intro p0 pre f post hp0 hsplit hok hflen hf
    unfold feature_importance feature_importance_run
    simp only [hp0]
    rw [hsplit]
    have herr := fiLoop_error_first m oracle p0 p0.length pre f post
      ⟨ds.data, ds.data⟩ ⟨[ds.data], []⟩ [] e
      (by simpa [perturbedTable] using hok)
      (by simpa using hflen)
      (by simpa [perturbedTable] using hf)
    simp [herr]

/-- Witness for C8: scenario F propagates a baseline failure, scenario G
propagates a failure raised on the first perturbed re-scoring. -/
theorem c8_witness :
    mF dsG.data = Except.error (PyError.modelException "boom")
    ∧ feature_importance mF dsG orG = Except.error (PyError.modelException "boom")
    ∧ mG dsG.data = Except.ok [[1]]
    ∧ mG (perturbedTable dsG orG 1 "a")
        = Except.error (PyError.modelException "fit failed")
    ∧ feature_importance mG dsG orG
        = Except.error (PyError.modelException "fit failed") := by
  refine ⟨rfl, ?_, by simp [mG], by simp [mG, perturbedTable, dsG, orG, setColumn], ?_⟩
  · exact (c8_model_errors_propagate mF dsG orG (PyError.modelException "boom")).1 rfl
  · exact (c8_model_errors_propagate mG dsG orG (PyError.modelException "fit failed")).2
      [[1]] [] "a" [] (by simp [mG]) rfl
      (by intro g hg; exact absurd hg (List.not_mem_nil g))
      rfl
      (by simp [mG, perturbedTable, dsG, orG, setColumn])

/-- Claim C9: a missing rendering backend and an unopenable display surface
are re-raised by `plot_feature_importance` as the two distinct typed
failures, never swallowed; any other failure of the plot call is a failure
of the importance computation itself, whose numeric result is produced by
`feature_importance` independently of the backend state. -/
theorem c9_rendering_failures_typed (m : Model) (ds : Dataset) (oracle : Sampler) :
    plot_feature_importance BackendStatus.backendMissing m ds oracle
        = Except.error (PyError.matplotlibUnavailableError
            "Matplotlib is required but unavailable on your system.")
    ∧ plot_feature_importance BackendStatus.displayMissing m ds oracle
        = Except.error (PyError.matplotlibDisplayError
            "Matplotlib unable to open display")
    ∧ PyError.matplotlibUnavailableError
          "Matplotlib is required but unavailable on your system."
        ≠ PyError.matplotlibDisplayError "Matplotlib unable to open display"
    ∧ (∀ res, feature_importance m ds oracle = Except.ok res →
        plot_feature_importance BackendStatus.available m ds oracle
          = Except.ok (sortValues res))
    ∧ (∀ b e, plot_feature_importance b m ds oracle = Except.error e →
        e = PyError.matplotlibUnavailableError
              "Matplotlib is required but unavailable on your system."
        ∨ e = PyError.matplotlibDisplayError "Matplotlib unable to open display"
        ∨ feature_importance m ds oracle = Except.error e) := by
  refine ⟨rfl, rfl, by simp, ?_, ?_⟩
  · intro res hres
    unfold plot_feature_importance
    simp [hres]
  · intro b e hbe
    cases b with
    | backendMissing =>
      left
      injection hbe with h
      exact h.symm
    | displayMissing =>
      right; left
      injection hbe with h
      exact h.symm
    | available =>
      right; right
      unfold plot_feature_importance at hbe
      rcases hfi : feature_importance m ds oracle with e' | imp
      · simp only [hfi] at hbe
        injection hbe with h
        rw [h]
      · simp only [hfi] at hbe
        exact Except.noConfusion hbe

/-- Witness for C9 at scenario K: the typed backend failure, and the
available-backend path returning the sorted numeric result. -/
theorem c9_witness :
    plot_feature_importance BackendStatus.backendMissing mK dsK orK
        = Except.error (PyError.matplotlibUnavailableError
            "Matplotlib is required but unavailable on your system.")
    ∧ plot_feature_importance BackendStatus.available mK dsK orK
        = Except.ok (sortValues [("a", none)]) := by
  have h := c9_rendering_failures_typed mK dsK orK
  refine ⟨h.1, ?_⟩
  apply h.2.2.2.1
  simp [feature_importance, feature_importance_run, mK, dsK, orK, fiLoop,
    generate_column_sample, setColumn, getColumn, matSub, npMeanStd, numCols,
    colAt, castCol, listStd, listVar, listMean, normalizeSeries, sortValues,
    pdSeriesOfDict, keyLE, strLEb, seriesSum, optDiv, List.insertionSort,
    List.orderedInsert]

/-- Claim C10: on a run where every sample draw matches the table's rows and
every predict succeeds, `predict` is invoked exactly `m + 1` times for `m`
feature ids — once on the unperturbed table, then once per feature on that
feature's perturbed working copy — and every `generate_column_sample` call
requests exactly `p0.length` samples, the row count of the baseline
prediction output, not a separately read dataset row count: when those two
counts differ (first feature's draw count ≠ its column's rows), exactly one
predict call has happened and the length-mismatch `ValueError` is raised,
with the sampler still having been asked for `p0.length` samples. -/
theorem c10_predict_call_count (m : Model) (ds : Dataset) (oracle : Sampler)
    (p0 : Pred)
    (hp0 : m ds.data = Except.ok p0) :
    ((∀ f ∈ ds.feature_ids,
        (oracle f p0.length).length = (getColumn ds.data f).length
        ∧ ∃ q, m (perturbedTable ds oracle p0.length f) = Except.ok q) →
      (feature_importance_run m ds oracle).trace.predictCalls.length
          = ds.feature_ids.length + 1
      ∧ (feature_importance_run m ds oracle).trace.predictCalls
          = ds.data :: ds.feature_ids.map (perturbedTable ds oracle p0.length)
      ∧ (feature_importance_run m ds oracle).trace.sampleCalls
          = ds.feature_ids.map (fun f => (f, p0.length, "random-choice")))
    ∧ (∀ f rest, ds.feature_ids = f :: rest →
        (oracle f p0.length).length ≠ (getColumn ds.data f).length →
        (feature_importance_run m ds oracle).trace.predictCalls = [ds.data]
        ∧ (feature_importance_run m ds oracle).trace.sampleCalls
            = [(f, p0.length, "random-choice")]
        ∧ feature_importance m ds oracle
            = Except.error (PyError.valueError
                "operands could not be broadcast together")) := by
  constructor
  · intro hall
    have htr := feature_importance_trace m ds oracle p0 hp0 hall
    rw [htr]
    exact ⟨by simp, rfl, rfl⟩
  · intro f rest hsplit hmis
    have hstep : fiLoop m oracle p0 p0.length (f :: rest)
        ⟨ds.data, ds.data⟩ ⟨[ds.data], []⟩ []
        = ⟨Except.error (PyError.valueError "operands could not be broadcast together"),
           ⟨ds.data, ds.data⟩, ⟨[ds.data], [(f, p0.length, "random-choice")]⟩⟩ := by
      rw [fiLoop]
      simp only [gcs_random_choice]
      rw [if_neg hmis]
      rfl
    unfold feature_importance feature_importance_run
    simp only [hp0]
    rw [hsplit, hstep]
    exact ⟨rfl, rfl, rfl⟩

/-- Witness for C10: scenario K exercises the completed run (two predict
calls for one feature, samples requested per the baseline's 2 rows); in
scenario T the model returns 3 baseline rows on the 2-row dataset, so the
sampler is asked for 3 samples — the prediction row count, not the dataset
row count — and the run stops after the single baseline predict call with
the length-mismatch `ValueError`. -/
theorem c10_witness :
    mK dsK.data = Except.ok [[5], [5]]
    ∧ ((feature_importance_run mK dsK orK).trace.predictCalls.length
          = dsK.feature_ids.length + 1
        ∧ (feature_importance_run mK dsK orK).trace.predictCalls
            = dsK.data :: dsK.feature_ids.map (perturbedTable dsK orK 2)
        ∧ (feature_importance_run mK dsK orK).trace.sampleCalls
            = dsK.feature_ids.map (fun f => (f, 2, "random-choice")))
    ∧ mT dsT.data = Except.ok [[1], [2], [3]]
    ∧ (getColumn dsT.data "a").length = 2
    ∧ ((feature_importance_run mT dsT orT).trace.predictCalls = [dsT.data]
        ∧ (feature_importance_run mT dsT orT).trace.sampleCalls
            = [("a", 3, "random-choice")]
        ∧ feature_importance mT dsT orT
            = Except.error (PyError.valueError
                "operands could not be broadcast together")) := by
  refine ⟨rfl, (c10_predict_call_count mK dsK orK [[5], [5]] rfl).1 ?_, rfl, rfl,
    (c10_predict_call_count mT dsT orT [[1], [2], [3]] rfl).2 "a" [] rfl (by decide)⟩
  intro f hf
  simp only [dsK] at hf
  rw [List.mem_singleton] at hf
  subst hf
  exact ⟨rfl, [[5], [5]], rfl⟩

end Pyinterpret
